import Mathlib

/-!
Shallow embedding of the uxn virtual machine core (src/uxn.rs).

Machine integers are modelled as `Nat` with explicit reductions where the
Rust code truncates or wraps: `u8 v = v % 256`, `u16 v = v % 65536`
(release-profile wrapping semantics for arithmetic overflow).  Arrays are
modelled as total functions `Nat → Nat` together with pointwise update
`updf`; Rust's out-of-bounds array indexing (a panic in every profile) is
modelled by the distinguished outcome `Res.fault` / `EvalOut.fault`.
Fallible Rust functions returning `Result<_, &str>` become `Except String _`
at the `Stack` level and the state-threading `Res` at the `Uxn` level,
because a `&mut self` method that returns `Err` still keeps every mutation
it performed before failing.
-/

namespace Uxnvm

def u8 (v : Nat) : Nat := v % 256

def u16 (v : Nat) : Nat := v % 65536

/-- Pointwise update of an array modelled as a total function. -/
def updf {α : Type} (f : Nat → α) (i : Nat) (v : α) : Nat → α :=
  fun j => if j = i then v else f j

/-- `InstructionMode` predicates.  In the source the whole instruction byte is
converted into the bitmask (`let mode: InstructionMode = instr.into()`), and
`contains` tests the flag bit, so the predicates take the raw byte. -/
def isShort (m : Nat) : Bool := m &&& 0x20 == 0x20

def isReturn (m : Nat) : Bool := m &&& 0x40 == 0x40

def isKeep (m : Nat) : Bool := m &&& 0x80 == 0x80

/-- The 32 opcodes of `enum Opcode` (`src/uxn.rs` lines 40-73). -/
inductive Opcode where
  | LIT | INC | POP | NIP | SWP | ROT | DUP | OVR
  | EQU | NEQ | GTH | LTH | JMP | JCN | JSR | STH
  | LDZ | STZ | LDR | STR | LDA | STA | DEI | DEO
  | ADD | SUB | MUL | DIV | AND | ORA | EOR | SFT
  deriving DecidableEq

/-- Decode an instruction byte: `eval` computes `(instr & 0x1f).into()`, and
the `From<u8>` impl reinterprets the masked byte, which is always one of the
32 discriminants `0x00`-`0x1f`.  The final catch-all arm is reached exactly
for the masked value `31` because `b &&& 0x1f < 32`. -/
def decode (b : Nat) : Opcode :=
  match b &&& 0x1f with
  | 0 => .LIT | 1 => .INC | 2 => .POP | 3 => .NIP
  | 4 => .SWP | 5 => .ROT | 6 => .DUP | 7 => .OVR
  | 8 => .EQU | 9 => .NEQ | 10 => .GTH | 11 => .LTH
  | 12 => .JMP | 13 => .JCN | 14 => .JSR | 15 => .STH
  | 16 => .LDZ | 17 => .STZ | 18 => .LDR | 19 => .STR
  | 20 => .LDA | 21 => .STA | 22 => .DEI | 23 => .DEO
  | 24 => .ADD | 25 => .SUB | 26 => .MUL | 27 => .DIV
  | 28 => .AND | 29 => .ORA | 30 => .EOR | _ => .SFT

/-- `struct Stack`: 256-byte data array, live pointer `ptr`, shadow pointer
`kptr`. -/
structure Stack where
  ptr : Nat
  kptr : Nat
  data : Nat → Nat

/-- Device state for the three device implementations present in the source
(`BitmapDevice`, `VectorDevice`, `NullDevice`). -/
inductive DeviceSt where
  | bitmap (buffer : Nat → Nat) (x y color : Nat)
  | vector (x y width height color : Nat)
  | null

/-- `struct Uxn`: 64KB ram, program counter, the two stacks, the 16 device
slots and the halt flag. -/
structure Uxn where
  ram : Nat → Nat
  pc : Nat
  wst : Stack
  rst : Stack
  dev : Nat → DeviceSt
  halted : Bool

/-- Outcome of a `&mut self` operation: success or `Err` both carry the
resulting machine (Rust keeps mutations made before an early `Err` return);
`fault` is an out-of-bounds array panic. -/
inductive Res (α : Type) where
  | ok : α → Uxn → Res α
  | err : String → Uxn → Res α
  | fault : Res α

def Res.bind {α β : Type} : Res α → (α → Uxn → Res β) → Res β
  | .ok a u, f => f a u
  | .err e u, _ => .err e u
  | .fault, _ => .fault

/-- `Stack` half of `Uxn::pop8`: guard, decrement `ptr`, read `data[ptr]`. -/
def stPop8 (s : Stack) : Except String (Nat × Stack) :=
  if s.ptr = 0 then .error "Stack underflow"
  else .ok (s.data (s.ptr - 1), { s with ptr := s.ptr - 1 })

/-- `Stack` half of `Uxn::pop16`: guard `ptr <= 1`, decrement by 2, read
big-endian at `ptr` and `ptr + 1`. -/
def stPop16 (s : Stack) : Except String (Nat × Stack) :=
  if s.ptr ≤ 1 then .error "Stack underflow"
  else .ok ((s.data (s.ptr - 2)) <<< 8 ||| s.data (s.ptr - 2 + 1),
            { s with ptr := s.ptr - 2 })

/-- `Stack` half of `Uxn::kpop8`.  Note the source reads `data[kptr]` BEFORE
decrementing `kptr` (the opposite order from `pop8` and `kpop16`). -/
def stKpop8 (s : Stack) : Except String (Nat × Stack) :=
  if s.kptr = 0 then .error "Stack underflow"
  else .ok (s.data s.kptr, { s with kptr := s.kptr - 1 })

/-- `Stack` half of `Uxn::kpop16`: guard `kptr <= 1`, decrement by 2, read
big-endian at `kptr` and `kptr + 1`. -/
def stKpop16 (s : Stack) : Except String (Nat × Stack) :=
  if s.kptr ≤ 1 then .error "Stack underflow"
  else .ok ((s.data (s.kptr - 2)) <<< 8 ||| s.data (s.kptr - 2 + 1),
            { s with kptr := s.kptr - 2 })

/-- `Stack` half of `Uxn::push8`: guard `ptr >= 255`, write `v as u8` at
`ptr`, increment. -/
def stPush8 (v : Nat) (s : Stack) : Except String Stack :=
  if 255 ≤ s.ptr then .error "Stack overflow"
  else .ok { s with data := updf s.data s.ptr (u8 v), ptr := s.ptr + 1 }

/-- `Stack` half of `Uxn::push16`: guard `ptr >= 254`, then the source writes
`(v >> 8) as u8` at index `ptr` and `(v & 0xff) as u8` at the SAME index
`ptr` (the second store overwrites the first; there is no `+ 1`), and
increments `ptr` by 2. -/
def stPush16 (v : Nat) (s : Stack) : Except String Stack :=
  if 254 ≤ s.ptr then .error "Stack overflow"
  else .ok { s with
    data := updf (updf s.data s.ptr (u8 (v >>> 8))) s.ptr (v &&& 0xff),
    ptr := s.ptr + 2 }

/-- `Uxn::get_stack` selecting which stack a mode-indexed operation acts on. -/
def modeStack (mode : Nat) (u : Uxn) : Stack :=
  if isReturn mode then u.rst else u.wst

/-- Lift a value-returning `Stack` operation through `get_stack`. -/
def liftSt {α : Type} (mode : Nat) (f : Stack → Except String (α × Stack))
    (u : Uxn) : Res α :=
  if isReturn mode then
    match f u.rst with
    | .ok (v, s) => .ok v { u with rst := s }
    | .error e => .err e u
  else
    match f u.wst with
    | .ok (v, s) => .ok v { u with wst := s }
    | .error e => .err e u

/-- Lift a push-style `Stack` operation through `get_stack`. -/
def liftPush (mode : Nat) (f : Stack → Except String Stack) (u : Uxn) :
    Res Unit :=
  if isReturn mode then
    match f u.rst with
    | .ok s => .ok () { u with rst := s }
    | .error e => .err e u
  else
    match f u.wst with
    | .ok s => .ok () { u with wst := s }
    | .error e => .err e u

def upop8 (mode : Nat) : Uxn → Res Nat := liftSt mode stPop8

def upop16 (mode : Nat) : Uxn → Res Nat := liftSt mode stPop16

def ukpop8 (mode : Nat) : Uxn → Res Nat := liftSt mode stKpop8

def ukpop16 (mode : Nat) : Uxn → Res Nat := liftSt mode stKpop16

def upush8 (mode : Nat) (v : Nat) : Uxn → Res Unit := liftPush mode (stPush8 v)

def upush16 (mode : Nat) (v : Nat) : Uxn → Res Unit := liftPush mode (stPush16 v)

/-- `Uxn::pop`: dispatch on Keep and Short. -/
def upop (mode : Nat) (u : Uxn) : Res Nat :=
  if isKeep mode then
    if isShort mode then ukpop16 mode u else ukpop8 mode u
  else
    if isShort mode then upop16 mode u else upop8 mode u

/-- `Uxn::push`: dispatch on Short. -/
def upush (mode : Nat) (v : Nat) (u : Uxn) : Res Unit :=
  if isShort mode then upush16 mode v u else upush8 mode v u

/-- `Uxn::peek`: reads `ram[addr]` (and `ram[addr + 1]` big-endian under
Short).  The source indexes the 65536-byte array directly with no masking,
so an index past the end is a Rust panic, modelled as `fault`. -/
def peek (addr mode : Nat) (u : Uxn) : Res Nat :=
  if isShort mode then
    if addr + 1 < 65536 then .ok ((u.ram addr) <<< 8 ||| u.ram (addr + 1)) u
    else .fault
  else
    if addr < 65536 then .ok (u.ram addr) u else .fault

/-- `Uxn::poke`: writes 1 byte, or 2 bytes big-endian under Short, again
with unchecked indexing into the 65536-byte array. -/
def poke (addr value mode : Nat) (u : Uxn) : Res Unit :=
  if isShort mode then
    if addr + 1 < 65536 then
      .ok () { u with
        ram := updf (updf u.ram addr (u8 (value >>> 8))) (addr + 1)
                 (value &&& 0xff) }
    else .fault
  else
    if addr < 65536 then .ok () { u with ram := updf u.ram addr (u8 value) }
    else .fault

/-- `Uxn::warp`: absolute jump under Short, otherwise wrapping relative add
to `pc`. -/
def warp (addr mode : Nat) (u : Uxn) : Res Unit :=
  if isShort mode then .ok () { u with pc := addr }
  else .ok () { u with pc := u16 (u.pc + addr) }

/-- `Device::dei` for the non-system devices: every implementation fails. -/
def devDei : DeviceSt → Nat → Except String Nat
  | .bitmap _ _ _ _, _ => .error "device not implemented"
  | .vector _ _ _ _ _, _ => .error "device not implemented"
  | .null, _ => .error "NullDevice::dei"

/-- `Device::deo` for the non-system devices.  The bitmap and vector devices
mutate their fields for recognised ports but then unconditionally fall
through to `Err("device not implemented")`; drawing routines only print. -/
def devDeo : DeviceSt → Nat → Nat → DeviceSt × Option String
  | .bitmap buf x y c, port, value =>
    if port = 0 then
      if value = 0 then (.bitmap buf x y c, some "device not implemented")
      else if value = 1 then
        (.bitmap (updf buf (y * 16 + x) c) x y c, some "device not implemented")
      else (.bitmap buf x y c, some "invalid draw command")
    else if port = 1 then (.bitmap buf (value % 16) y c, some "device not implemented")
    else if port = 2 then (.bitmap buf x (value % 16) c, some "device not implemented")
    else if port = 3 then (.bitmap buf x y value, some "device not implemented")
    else (.bitmap buf x y c, some "device not implemented")
  | .vector x y w h c, port, value =>
    if port = 0 then
      if value = 1 then (.vector x y w h c, some "device not implemented")
      else if value = 2 then (.vector x y w h c, some "device not implemented")
      else (.vector x y w h c, some "invalid draw command")
    else if port = 1 then (.vector value y w h c, some "device not implemented")
    else if port = 2 then (.vector x value w h c, some "device not implemented")
    else if port = 3 then (.vector x y value h c, some "device not implemented")
    else if port = 4 then (.vector x y w value c, some "device not implemented")
    else if port = 5 then (.vector x y w h value, some "device not implemented")
    else (.vector x y w h c, some "device not implemented")
  | .null, _, _ => (.null, some "NullDevice::deo")

/-- `impl Device for Uxn`, `dei`: port 2 and 3 expose the stack pointers. -/
def sysDei (u : Uxn) (port : Nat) : Except String Nat :=
  if port = 2 then .ok u.wst.ptr
  else if port = 3 then .ok u.rst.ptr
  else .error "Uxn::dei"

/-- `impl Device for Uxn`, `deo`: ports 2/3 write the stack pointers, 0x0e
triggers `print` (a no-op), 0x0f sets the halt flag to `value != 0`, ports
0x08-0x0d are accepted and ignored, anything else is an error. -/
def sysDeo (port value : Nat) (u : Uxn) : Uxn × Option String :=
  if port = 2 then ({ u with wst := { u.wst with ptr := value } }, none)
  else if port = 3 then ({ u with rst := { u.rst with ptr := value } }, none)
  else if port = 0x0e then (u, none)
  else if port = 0x0f then ({ u with halted := value != 0 }, none)
  else if 0x07 < port ∧ port < 0x0e then (u, none)
  else (u, some "Uxn::deo")

/-- Device-bus read used by the DEI opcode: slot 0 is the inline system
device, other slots go through the device array. -/
def busDei (u : Uxn) (device port : Nat) : Except String Nat :=
  if device = 0 then sysDei u port else devDei (u.dev device) port

/-- Re-inject an `Except` device-read result into `Res` (the read itself does
not mutate the machine). -/
def deiRes (r : Except String Nat) (u : Uxn) : Res Nat :=
  match r with
  | .ok b => .ok b u
  | .error e => .err e u

/-- Device-bus write used by the DEO opcode.  Faithful to the source bug:
for slot 0 the source calls `self.deo(port, a as u8)` — it passes the port
selector byte `a`, not the popped `value`; for slots 1-15 it passes
`value as u8` to that slot's `deo`, keeping the mutated device even when the
write reports an error. -/
def busDeo (a value : Nat) (u : Uxn) : Res Unit :=
  if (a >>> 4) &&& 0x0f = 0 then
    match sysDeo (a &&& 0x0f) (u8 a) u with
    | (u2, none) => .ok () u2
    | (u2, some e) => .err e u2
  else
    match devDeo (u.dev ((a >>> 4) &&& 0x0f)) (a &&& 0x0f) (u8 value) with
    | (d, none) => .ok () { u with dev := updf u.dev ((a >>> 4) &&& 0x0f) d }
    | (d, some e) => .err e { u with dev := updf u.dev ((a >>> 4) &&& 0x0f) d }

/-- Opposite-stack mode constant used by JSR and STH
(`InstructionMode::None` or `InstructionMode::Return`). -/
def oppMode (mode : Nat) : Nat := if isReturn mode then 0x00 else 0x40

/-- One opcode's semantic routine, after fetch, pc-advance and the Keep
snapshot; `mode` is the raw instruction byte. -/
def execOpcode (op : Opcode) (mode : Nat) (u : Uxn) : Res Unit :=
  match op with
  | .LIT =>
    Res.bind (peek u.pc mode u) fun a u1 =>
    Res.bind (upush mode a u1) fun _ u2 =>
    if isShort mode then .ok () { u2 with pc := u16 (u16 (u2.pc + 1) + 1) }
    else .ok () { u2 with pc := u16 (u2.pc + 1) }
  | .INC =>
    Res.bind (upop mode u) fun a u1 => upush mode (u16 (a + 1)) u1
  | .POP =>
    Res.bind (upop mode u) fun _ u1 => .ok () u1
  | .NIP =>
    Res.bind (upop mode u) fun a u1 =>
    Res.bind (upop mode u1) fun _ u2 => upush mode a u2
  | .SWP =>
    Res.bind (upop mode u) fun a u1 =>
    Res.bind (upop mode u1) fun b u2 =>
    Res.bind (upush mode a u2) fun _ u3 => upush mode b u3
  | .ROT =>
    Res.bind (upop mode u) fun a u1 =>
    Res.bind (upop mode u1) fun b u2 =>
    Res.bind (upop mode u2) fun c u3 =>
    Res.bind (upush mode b u3) fun _ u4 =>
    Res.bind (upush mode a u4) fun _ u5 => upush mode c u5
  | .DUP =>
    Res.bind (upop mode u) fun a u1 =>
    Res.bind (upush mode a u1) fun _ u2 => upush mode a u2
  | .OVR =>
    Res.bind (upop mode u) fun a u1 =>
    Res.bind (upop mode u1) fun b u2 =>
    Res.bind (upush mode b u2) fun _ u3 =>
    Res.bind (upush mode a u3) fun _ u4 => upush mode b u4
  | .EQU =>
    Res.bind (upop mode u) fun a u1 =>
    Res.bind (upop mode u1) fun b u2 =>
    upush8 mode (if a = b then 1 else 0) u2
  | .NEQ =>
    Res.bind (upop mode u) fun a u1 =>
    Res.bind (upop mode u1) fun b u2 =>
    upush8 mode (if a ≠ b then 1 else 0) u2
  | .GTH =>
    Res.bind (upop mode u) fun a u1 =>
    Res.bind (upop mode u1) fun b u2 =>
    upush8 mode (if b > a then 1 else 0) u2
  | .LTH =>
    Res.bind (upop mode u) fun a u1 =>
    Res.bind (upop mode u1) fun b u2 =>
    upush8 mode (if b < a then 1 else 0) u2
  | .JMP =>
    Res.bind (upop mode u) fun a u1 => warp a mode u1
  | .JCN =>
    Res.bind (upop mode u) fun a u1 =>
    Res.bind (upop8 mode u1) fun b u2 =>
    if b ≠ 0 then warp a mode u2 else .ok () u2
  | .JSR =>
    Res.bind (upop mode u) fun a u1 =>
    Res.bind (upush8 (oppMode mode) u1.pc u1) fun _ u2 => warp a mode u2
  | .STH =>
    Res.bind (upop mode u) fun a u1 => upush16 (oppMode mode) a u1
  | .LDZ =>
    Res.bind (upop8 mode u) fun a u1 =>
    Res.bind (peek a mode u1) fun b u2 => upush mode b u2
  | .STZ =>
    Res.bind (upop8 mode u) fun a u1 =>
    Res.bind (upop mode u1) fun b u2 => poke a b mode u2
  | .LDR =>
    Res.bind (upop8 mode u) fun a u1 =>
    Res.bind (peek (u16 (a + u1.pc)) mode u1) fun b u2 => upush mode b u2
  | .STR =>
    Res.bind (upop8 mode u) fun a u1 =>
    Res.bind (upop mode u1) fun b u2 => poke (u16 (a + u2.pc)) b mode u2
  | .LDA =>
    Res.bind (upop16 mode u) fun a u1 =>
    Res.bind (peek a mode u1) fun b u2 => upush mode b u2
  | .STA =>
    Res.bind (upop16 mode u) fun a u1 =>
    Res.bind (upop mode u1) fun b u2 => poke a b mode u2
  | .DEI =>
    Res.bind (upop8 mode u) fun a u1 =>
    Res.bind (deiRes (busDei u1 ((a >>> 4) &&& 0x0f) (a &&& 0x0f)) u1)
      fun b u2 => upush mode b u2
  | .DEO =>
    Res.bind (upop8 mode u) fun a u1 =>
    Res.bind (upop mode u1) fun value u2 => busDeo a value u2
  | .ADD =>
    Res.bind (upop mode u) fun a u1 =>
    Res.bind (upop mode u1) fun b u2 => upush mode (u16 (a + b)) u2
  | .SUB =>
    Res.bind (upop mode u) fun a u1 =>
    Res.bind (upop mode u1) fun b u2 =>
    upush mode (u16 (b + 65536 - u16 a)) u2
  | .MUL =>
    Res.bind (upop mode u) fun a u1 =>
    Res.bind (upop mode u1) fun b u2 => upush mode (u16 (a * b)) u2
  | .DIV =>
    Res.bind (upop mode u) fun a u1 =>
    Res.bind (upop mode u1) fun b u2 =>
    if a = 0 then .err "Division by zero" u2 else upush mode (b / a) u2
  | .AND =>
    Res.bind (upop mode u) fun a u1 =>
    Res.bind (upop mode u1) fun b u2 => upush mode (a &&& b) u2
  | .ORA =>
    Res.bind (upop mode u) fun a u1 =>
    Res.bind (upop mode u1) fun b u2 => upush mode (a ||| b) u2
  | .EOR =>
    Res.bind (upop mode u) fun a u1 =>
    Res.bind (upop mode u1) fun b u2 => upush mode (a ^^^ b) u2
  | .SFT =>
    Res.bind (upop mode u) fun a u1 =>
    Res.bind (upop8 mode u1) fun b u2 =>
    upush mode ((u16 (a <<< ((b &&& 0xF0) >>> 4))) >>> (b &&& 0x0F)) u2

/-- The Keep snapshot taken at the start of every Keep-flagged instruction
(`eval`, lines 453-456): both shadow pointers are reset to the live
pointers. -/
def keepSnap (instr : Nat) (u : Uxn) : Uxn :=
  if isKeep instr then
    { u with wst := { u.wst with kptr := u.wst.ptr },
             rst := { u.rst with kptr := u.rst.ptr } }
  else u

/-- Dispatch one fetched instruction byte: Keep snapshot, then the decoded
opcode's routine. -/
def execInstr (instr : Nat) (u : Uxn) : Res Unit :=
  execOpcode (decode instr) instr (keepSnap instr u)

/-- Result of a full `eval` run.  `spin` means the step budget (fuel) ran
out; the Rust loop has no budget and would simply still be running. -/
inductive EvalOut where
  | ok : Uxn → EvalOut
  | err : String → Uxn → EvalOut
  | fault : EvalOut
  | spin : EvalOut

/-- The fetch-dispatch loop of `Uxn::eval`: fetch `ram[pc]`, advance `pc`,
stop on the raw byte `0x00`, otherwise run the instruction and continue. -/
def evalLoop : Nat → Uxn → EvalOut
  | 0, _ => .spin
  | fuel + 1, u =>
    if u.ram u.pc = 0 then .ok { u with pc := u16 (u.pc + 1) }
    else
      match execInstr (u.ram u.pc) { u with pc := u16 (u.pc + 1) } with
      | .ok _ u2 => evalLoop fuel u2
      | .err e u2 => .err e u2
      | .fault => .fault

/-- `Uxn::eval(start_addr)`: set `pc`, return `Ok` immediately when the start
address is 0 or the machine is halted, otherwise run the loop. -/
def eval (fuel start : Nat) (u : Uxn) : EvalOut :=
  if u16 start = 0 ∨ u.halted = true then .ok { u with pc := u16 start }
  else evalLoop fuel { u with pc := u16 start }

/-- The freshly constructed stack of `Uxn::new`. -/
def initStack : Stack := { ptr := 0, kptr := 0, data := fun _ => 0 }

/-- The device array installed by `Uxn::new`: slot 1 a `BitmapDevice`,
slot 2 a `VectorDevice`, every other slot a `NullDevice` (slot 0 is the
reserved system slot, handled inline). -/
def initDevs : Nat → DeviceSt := fun n =>
  if n = 1 then .bitmap (fun _ => 0) 0 0 0
  else if n = 2 then .vector 0 0 0 0 0
  else .null

/-- The machine built by `Uxn::new`: zeroed ram, `pc = 0`, empty stacks,
not halted. -/
def initUxn : Uxn :=
  { ram := fun _ => 0, pc := 0, wst := initStack, rst := initStack,
    dev := initDevs, halted := false }

/-- Observations on an `EvalOut` (both `ok` and `err` carry the machine). -/
def outOk : EvalOut → Bool
  | .ok _ => true
  | _ => false

def outErr : EvalOut → Option String
  | .err e _ => some e
  | _ => none

def outPtr : EvalOut → Nat
  | .ok u => u.wst.ptr
  | .err _ u => u.wst.ptr
  | _ => 0

def outData : EvalOut → Nat → Nat
  | .ok u, i => u.wst.data i
  | .err _ u, i => u.wst.data i
  | _, _ => 0

def outHalted : EvalOut → Bool
  | .ok u => u.halted
  | .err _ u => u.halted
  | _ => false

/-- The error strings the interpreter and its devices can produce: the three
interpreter errors and the device errors.  There is no unknown-opcode
error anywhere in the source. -/
def goodErr (e : String) : Bool :=
  e == "Stack underflow" || e == "Stack overflow" || e == "Division by zero" ||
  e == "Uxn::dei" || e == "Uxn::deo" || e == "NullDevice::dei" ||
  e == "NullDevice::deo" || e == "device not implemented" ||
  e == "invalid draw command"

/-- Every `err` outcome of `r` carries one of the known error strings. -/
def errsOk {α : Type} (r : Res α) : Prop :=
  ∀ e w, r = Res.err e w → goodErr e = true

/-- Machine for exercising Keep mode: `INC` with the Keep flag (byte `0x81`)
at address 1, working stack holding the single byte `0x05`. -/
def c1KeepM : Uxn := { initUxn with
  ram := updf (fun _ => 0) 1 0x81,
  wst := { initStack with ptr := 1, data := updf (fun _ => 0) 0 5 } }

/-- The same machine with a plain `INC` (byte `0x01`) instead. -/
def c1PlainM : Uxn := { c1KeepM with ram := updf (fun _ => 0) 1 0x01 }

/-- Machine with `DIV` (byte `0x1b`) at address 1 and working stack
`[0x03, 0x00]` (so the first pop yields the divisor 0). -/
def c2M : Uxn := { initUxn with
  ram := updf (fun _ => 0) 1 0x1b,
  wst := { initStack with ptr := 2, data := updf (fun _ => 0) 0 3 } }

/-- Stack-only machine for the amended DIV statement: working stack
`[0x03, 0x00]`. -/
def c2W : Uxn := { initUxn with
  wst := { initStack with ptr := 2, data := updf (fun _ => 0) 0 3 } }

/-- Machine with `DEO` (byte `0x17`) at address 1 and working stack
`[value = 0x00, selector = 0x0f]`: a write of value 0 to system-device
port `0x0f` (the halt flag). -/
def c3M : Uxn := { initUxn with
  ram := updf (fun _ => 0) 1 0x17,
  wst := { initStack with ptr := 2, data := updf (fun _ => 0) 1 0x0f } }

/-- `push16` immediately followed by `pop16` on the same stack. -/
def rtPush16Pop16 (v : Nat) (s : Stack) : Except String (Nat × Stack) :=
  match stPush16 v s with
  | .ok s1 => stPop16 s1
  | .error e => .error e

def rtOk (v : Nat) : Bool :=
  match rtPush16Pop16 v initStack with
  | .ok _ => true
  | .error _ => false

def rtVal (v : Nat) : Nat :=
  match rtPush16Pop16 v initStack with
  | .ok (w, _) => w
  | .error _ => 1000000

def rtPtr (v : Nat) : Nat :=
  match rtPush16Pop16 v initStack with
  | .ok (_, s) => s.ptr
  | .error _ => 1000000

/-- Machine with `SFT` (byte `0x1f`) at address 1 and working stack
`[control = 0x11, value = 0x81]` (shift left 1 then right 1). -/
def c6M : Uxn := { initUxn with
  ram := updf (fun _ => 0) 1 0x1f,
  wst := { initStack with ptr := 2, data := updf (updf (fun _ => 0) 0 0x11) 1 0x81 } }

/-- Stack-only machine for the amended SFT statement: working stack
`[0x11, 0x81]`. -/
def c6W : Uxn := { initUxn with
  wst := { initStack with ptr := 2, data := updf (updf (fun _ => 0) 0 0x11) 1 0x81 } }

/-- A halted machine whose ram holds a pushing program (`LIT`-with-Keep-bit
`0x80`, literal `0x05`) at address 1. -/
def c9M : Uxn := { initUxn with
  halted := true,
  ram := updf (updf (fun _ => 0) 1 0x80) 2 5 }

/-- Machine with `POP` (byte `0x02`) at address 1 and an empty working
stack, so `eval` fails with a stack underflow. -/
def c10M : Uxn := { initUxn with ram := updf (fun _ => 0) 1 0x02 }

/-- The state `eval` leaves behind on that underflow: only `pc` moved. -/
def c10Me : Uxn := { c10M with pc := 2 }

theorem errsOk_ok {α : Type} (a : α) (u : Uxn) : errsOk (Res.ok a u) :=
  fun _ _ h => Res.noConfusion h

theorem errsOk_fault {α : Type} : errsOk (Res.fault : Res α) :=
  fun _ _ h => Res.noConfusion h

theorem errsOk_err {α : Type} {e : String} (u : Uxn) (h : goodErr e = true) :
    errsOk (Res.err e u : Res α) := by
  intro e2 w h2
  cases h2
  exact h

theorem errsOk_bind {α β : Type} {r : Res α} {f : α → Uxn → Res β}
    (h1 : errsOk r) (h2 : ∀ a u, errsOk (f a u)) : errsOk (Res.bind r f) := by
  intro e w h
  cases r with
  | ok a u => exact h2 a u e w h
  | err e2 u2 => cases h; exact h1 _ _ rfl
  | fault => exact Res.noConfusion h

theorem stPop8_err (s : Stack) (e : String) (h : stPop8 s = .error e) :
    goodErr e = true := by
  unfold stPop8 at h
  split at h
  · injection h with he; subst he; rfl
  · exact Except.noConfusion h

theorem stPop16_err (s : Stack) (e : String) (h : stPop16 s = .error e) :
    goodErr e = true := by
  unfold stPop16 at h
  split at h
  · injection h with he; subst he; rfl
  · exact Except.noConfusion h

theorem stKpop8_err (s : Stack) (e : String) (h : stKpop8 s = .error e) :
    goodErr e = true := by
  unfold stKpop8 at h
  split at h
  · injection h with he; subst he; rfl
  · exact Except.noConfusion h

theorem stKpop16_err (s : Stack) (e : String) (h : stKpop16 s = .error e) :
    goodErr e = true := by
  unfold stKpop16 at h
  split at h
  · injection h with he; subst he; rfl
  · exact Except.noConfusion h

theorem stPush8_err (v : Nat) (s : Stack) (e : String)
    (h : stPush8 v s = .error e) : goodErr e = true := by
  unfold stPush8 at h
  split at h
  · injection h with he; subst he; rfl
  · exact Except.noConfusion h

theorem stPush16_err (v : Nat) (s : Stack) (e : String)
    (h : stPush16 v s = .error e) : goodErr e = true := by
  unfold stPush16 at h
  split at h
  · injection h with he; subst he; rfl
  · exact Except.noConfusion h

theorem errsOk_liftSt {α : Type} (mode : Nat)
    (f : Stack → Except String (α × Stack)) (u : Uxn)
    (hf : ∀ s e, f s = .error e → goodErr e = true) :
    errsOk (liftSt mode f u) := by
  intro e w h
  unfold liftSt at h
  split at h <;> split at h <;>
    first
      | exact Res.noConfusion h
      | (rename_i heq; injection h with h1 h2; subst h1; exact hf _ _ heq)

theorem errsOk_liftPush (mode : Nat) (f : Stack → Except String Stack)
    (u : Uxn) (hf : ∀ s e, f s = .error e → goodErr e = true) :
    errsOk (liftPush mode f u) := by
  intro e w h
  unfold liftPush at h
  split at h <;> split at h <;>
    first
      | exact Res.noConfusion h
      | (rename_i heq; injection h with h1 h2; subst h1; exact hf _ _ heq)

theorem errsOk_upop8 (mode : Nat) (u : Uxn) : errsOk (upop8 mode u) :=
  errsOk_liftSt mode stPop8 u stPop8_err

theorem errsOk_upop16 (mode : Nat) (u : Uxn) : errsOk (upop16 mode u) :=
  errsOk_liftSt mode stPop16 u stPop16_err

theorem errsOk_upush8 (mode v : Nat) (u : Uxn) : errsOk (upush8 mode v u) :=
  errsOk_liftPush mode (stPush8 v) u (stPush8_err v)

theorem errsOk_upush16 (mode v : Nat) (u : Uxn) : errsOk (upush16 mode v u) :=
  errsOk_liftPush mode (stPush16 v) u (stPush16_err v)

theorem errsOk_upop (mode : Nat) (u : Uxn) : errsOk (upop mode u) := by
  unfold upop
  split_ifs
  · exact errsOk_liftSt mode stKpop16 u stKpop16_err
  · exact errsOk_liftSt mode stKpop8 u stKpop8_err
  · exact errsOk_liftSt mode stPop16 u stPop16_err
  · exact errsOk_liftSt mode stPop8 u stPop8_err

theorem errsOk_upush (mode v : Nat) (u : Uxn) : errsOk (upush mode v u) := by
  unfold upush
  split_ifs
  · exact errsOk_upush16 mode v u
  · exact errsOk_upush8 mode v u

theorem errsOk_peek (addr mode : Nat) (u : Uxn) : errsOk (peek addr mode u) := by
  intro e w h
  unfold peek at h
  split_ifs at h <;> exact Res.noConfusion h

theorem errsOk_poke (addr value mode : Nat) (u : Uxn) :
    errsOk (poke addr value mode u) := by
  intro e w h
  unfold poke at h
  split_ifs at h <;> exact Res.noConfusion h

theorem errsOk_warp (addr mode : Nat) (u : Uxn) : errsOk (warp addr mode u) := by
  intro e w h
  unfold warp at h
  split_ifs at h <;> exact Res.noConfusion h

theorem sysDei_err (u : Uxn) (p : Nat) (e : String) (h : sysDei u p = .error e) :
    goodErr e = true := by
  unfold sysDei at h
  split_ifs at h <;>
    first
      | exact Except.noConfusion h
      | (injection h with he; subst he; rfl)

theorem devDei_err (d : DeviceSt) (p : Nat) (e : String)
    (h : devDei d p = .error e) : goodErr e = true := by
  cases d <;> simp only [devDei] at h <;> (injection h with he; subst he; rfl)

theorem busDei_err (u : Uxn) (dv p : Nat) (e : String)
    (h : busDei u dv p = .error e) : goodErr e = true := by
  unfold busDei at h
  split_ifs at h
  · exact sysDei_err u p e h
  · exact devDei_err _ p e h

theorem errsOk_deiRes {r : Except String Nat} (u : Uxn)
    (hr : ∀ e, r = .error e → goodErr e = true) : errsOk (deiRes r u) := by
  intro e w h
  cases r with
  | ok b => simp only [deiRes] at h; exact Res.noConfusion h
  | error e2 => simp only [deiRes] at h; cases h; exact hr _ rfl

theorem errsOk_deiBus (u1 : Uxn) (dv p : Nat) (u : Uxn) :
    errsOk (deiRes (busDei u1 dv p) u) :=
  errsOk_deiRes u (fun e h => busDei_err u1 dv p e h)

theorem sysDeo_err (p v : Nat) (u : Uxn) (w : Uxn) (e : String)
    (h : sysDeo p v u = (w, some e)) : goodErr e = true := by
  unfold sysDeo at h
  split_ifs at h <;>
    (injection h with h1 h2; first
      | exact Option.noConfusion h2
      | (injection h2 with he; subst he; rfl))

theorem devDeo_err (d : DeviceSt) (p v : Nat) (d2 : DeviceSt) (e : String)
    (h : devDeo d p v = (d2, some e)) : goodErr e = true := by
  cases d <;> simp only [devDeo] at h <;>
    first
      | (injection h with h1 h2; injection h2 with he; subst he; rfl)
      | (split_ifs at h <;>
          (injection h with h1 h2; injection h2 with he; subst he; rfl))

theorem errsOk_busDeo (a value : Nat) (u : Uxn) : errsOk (busDeo a value u) := by
  intro e w h
  unfold busDeo at h
  split_ifs at h
  · split at h
    · exact Res.noConfusion h
    · rename_i heq; cases h; exact sysDeo_err _ _ _ _ _ heq
  · split at h
    · exact Res.noConfusion h
    · rename_i heq; cases h; exact devDeo_err _ _ _ _ _ heq

theorem errsOk_execOpcode (op : Opcode) (mode : Nat) (u : Uxn) :
    errsOk (execOpcode op mode u) := by
  cases op <;> simp only [execOpcode] <;>
    repeat' first
      | apply errsOk_bind
      | apply errsOk_upop8
      | apply errsOk_upop16
      | apply errsOk_upop
      | apply errsOk_upush8
      | apply errsOk_upush16
      | apply errsOk_upush
      | apply errsOk_peek
      | apply errsOk_poke
      | apply errsOk_warp
      | apply errsOk_busDeo
      | apply errsOk_deiBus
      | apply errsOk_ok
      | apply errsOk_fault
      | (apply errsOk_err; rfl)
      | intro a u
      | split

theorem errsOk_execInstr (instr : Nat) (u : Uxn) : errsOk (execInstr instr u) := by
  unfold execInstr
  exact errsOk_execOpcode _ _ _

theorem errsOk_evalLoop : ∀ (fuel : Nat) (u : Uxn) (e : String) (w : Uxn),
    evalLoop fuel u = EvalOut.err e w → goodErr e = true := by
  intro fuel
  induction fuel with
  | zero => intro u e w h; exact EvalOut.noConfusion h
  | succ n ih =>
    intro u e w h
    unfold evalLoop at h
    split at h
    · exact EvalOut.noConfusion h
    · split at h
      · exact ih _ _ _ h
      · rename_i heq; cases h; exact errsOk_execInstr _ _ _ _ heq
      · exact EvalOut.noConfusion h

/-- Claim C1 (code bug witnessed): executing `INC` with the Keep flag
(`0x81`) on a working stack holding `0x05` succeeds but leaves the live
pointer at 2 (not at its pre-instruction value 1) and pushes `0x01`
(`kpop8` read the byte one slot above the top), whereas the same
instruction without Keep leaves the pointer at 1 with result `0x06`.
This refutes the claim that a Keep-flagged instruction leaves `ptr`
unchanged while computing the same result as without Keep. -/
theorem c1_keep_divergence :
    outOk (eval 2 1 c1KeepM) = true ∧
    outPtr (eval 2 1 c1KeepM) = 2 ∧
    outData (eval 2 1 c1KeepM) 1 = 1 ∧
    outOk (eval 2 1 c1PlainM) = true ∧
    outPtr (eval 2 1 c1PlainM) = 1 ∧
    outData (eval 2 1 c1PlainM) 0 = 6 := by decide

/-- Claim C2 counterexample: `DIV` on the stack `[0x03, 0x00]` fails with
the division-by-zero error, but the stack pointer after the failure is 0,
not its pre-instruction value 2 — the two pops preceding the zero check
already mutated it. -/
theorem c2_div_mutates_ptr :
    outErr (eval 2 1 c2M) = some "Division by zero" ∧
    outPtr (eval 2 1 c2M) ≠ 2 ∧
    outPtr (eval 2 1 c2M) = 0 := by decide

/-- Claim C2 (amended): for a plain-mode `DIV` with at least two operands,
the instruction fails with the division-by-zero error exactly when the
first-popped operand is 0; on that failure the two pops have already
decremented the stack pointer by 2 and no push occurs, and when the
divisor is nonzero the instruction pushes `b / a`. -/
theorem c2_div_amended (u : Uxn) (h2 : 2 ≤ u.wst.ptr) (h255 : u.wst.ptr ≤ 255) :
    (u.wst.data (u.wst.ptr - 1) = 0 →
      execInstr 0x1b u = Res.err "Division by zero"
        { u with
          wst := { u.wst with ptr := u.wst.ptr - 2 } }) ∧
    (u.wst.data (u.wst.ptr - 1) ≠ 0 →
      execInstr 0x1b u = Res.ok ()
        { u with
          wst := { u.wst with
            ptr := u.wst.ptr - 1,
            data := updf u.wst.data (u.wst.ptr - 2)
              (u8 (u.wst.data (u.wst.ptr - 2) / u.wst.data (u.wst.ptr - 1))) } }) := by
  have e1 : ¬ (u.wst.ptr = 0) := by omega
  have e2 : ¬ (u.wst.ptr - 1 = 0) := by omega
  have e3 : ¬ (255 ≤ u.wst.ptr - 2) := by omega
  have hsub : u.wst.ptr - 1 - 1 = u.wst.ptr - 2 := by omega
  have hadd : u.wst.ptr - 2 + 1 = u.wst.ptr - 1 := by omega
  constructor <;> intro ha <;>
    simp [execInstr, keepSnap, execOpcode, decode, Res.bind, isKeep, isShort,
      isReturn, upop, upop8, upush, upush8, liftSt, liftPush, stPop8, stPush8,
      e1, e2, e3, hsub, hadd, ha]

/-- Claim C2 witness: the amended DIV statement applied to the concrete
stack `[0x03, 0x00]`. -/
theorem c2_div_amended_witness :
    2 ≤ c2W.wst.ptr ∧ c2W.wst.ptr ≤ 255 ∧
    ((c2W.wst.data (c2W.wst.ptr - 1) = 0 →
      execInstr 0x1b c2W = Res.err "Division by zero"
        { c2W with
          wst := { c2W.wst with ptr := c2W.wst.ptr - 2 } }) ∧
    (c2W.wst.data (c2W.wst.ptr - 1) ≠ 0 →
      execInstr 0x1b c2W = Res.ok ()
        { c2W with
          wst := { c2W.wst with
            ptr := c2W.wst.ptr - 1,
            data := updf c2W.wst.data (c2W.wst.ptr - 2)
              (u8 (c2W.wst.data (c2W.wst.ptr - 2) /
                c2W.wst.data (c2W.wst.ptr - 1))) } })) :=
  ⟨by decide, by decide, c2_div_amended c2W (by decide) (by decide)⟩

/-- Claim C3 (code bug witnessed): executing `DEO` with stack
`[value = 0x00, selector = 0x0f]` writes to system-device port `0x0f` (the
halt flag), and the machine ends up halted even though the popped value is
0 — the source passes the selector byte `a` (`0x0f`, nonzero) instead of
the popped value to the system device's write. -/
theorem c3_deo_selector_as_value :
    outOk (eval 2 1 c3M) = true ∧ outHalted (eval 2 1 c3M) = true := by decide

/-- Claim C4 (code bug witnessed): `push16 0x1234` on an empty stack
followed by `pop16` succeeds and restores the pointer, but returns
`0x3400` instead of `0x1234`, because `push16` writes both bytes at the
same index `ptr` (the low byte overwrites the high byte and the second
slot keeps its stale value). -/
theorem c4_push16_roundtrip_bug :
    rtOk 0x1234 = true ∧ rtVal 0x1234 = 0x3400 ∧ rtPtr 0x1234 = 0 ∧
    (0x3400 : Nat) ≠ 0x1234 := by decide

/-- Claim C5: stack bounds raise-iff with no mutation on failure.  For any
machine and mode, `pop8` fails with the underflow error (leaving the
machine, hence the pointer, untouched) exactly when the selected stack's
`ptr` is 0, `pop16` exactly when `ptr ≤ 1`, `push8` fails with the
overflow error exactly when `255 ≤ ptr`, and `push16` (one extra slot of
headroom) exactly when `254 ≤ ptr`. -/
theorem c5_stack_bounds (u : Uxn) (mode v : Nat) :
    (upop8 mode u = Res.err "Stack underflow" u ↔ (modeStack mode u).ptr = 0) ∧
    (upop16 mode u = Res.err "Stack underflow" u ↔ (modeStack mode u).ptr ≤ 1) ∧
    (upush8 mode v u = Res.err "Stack overflow" u ↔ 255 ≤ (modeStack mode u).ptr) ∧
    (upush16 mode v u = Res.err "Stack overflow" u ↔ 254 ≤ (modeStack mode u).ptr) := by
  unfold upop8 upop16 upush8 upush16 liftSt liftPush stPop8 stPop16 stPush8 stPush16 modeStack
  by_cases h : isReturn mode = true <;>
    simp only [h, if_true, if_false, Bool.false_eq_true, reduceIte] <;>
    refine ⟨?_, ?_, ?_, ?_⟩ <;> (split_ifs with hc <;> simp_all)

/-- Claim C6 counterexample: byte-mode `SFT` on stack
`[control = 0x11, value = 0x81]` pushes `0x81`, not the `0x01` an 8-bit
wrap of the left shift would give: the shifts are performed at 16-bit
width (`0x81 << 1 = 0x102`, `>> 1 = 0x81`), refuting the claim that the
shifts wrap at the 8-bit operand width when Short is clear. -/
theorem c6_sft_width_cex :
    outOk (eval 2 1 c6M) = true ∧
    outData (eval 2 1 c6M) 0 = 0x81 ∧
    ((0x81 <<< 1) % 256) >>> 1 = 1 ∧
    outData (eval 2 1 c6M) 0 ≠ ((0x81 <<< 1) % 256) >>> 1 := by decide

/-- Claim C6 (amended): plain byte-mode `SFT` pops the value `a`, then the
control byte; it computes `(a << high-nibble) >> low-nibble` on the 16-bit
unsigned value — the left shift wraps at 16 bits, not at the 8-bit operand
width — and only the final push truncates the result to a byte. -/
theorem c6_sft_amended (u : Uxn) (h2 : 2 ≤ u.wst.ptr) (h255 : u.wst.ptr ≤ 255) :
    execInstr 0x1f u = Res.ok ()
      { u with
        wst := { u.wst with
          ptr := u.wst.ptr - 1,
          data := updf u.wst.data (u.wst.ptr - 2)
            (u8 ((u16 (u.wst.data (u.wst.ptr - 1) <<<
                ((u.wst.data (u.wst.ptr - 2) &&& 0xF0) >>> 4))) >>>
              (u.wst.data (u.wst.ptr - 2) &&& 0x0F))) } } := by
  have e1 : ¬ (u.wst.ptr = 0) := by omega
  have e2 : ¬ (u.wst.ptr - 1 = 0) := by omega
  have e3 : ¬ (255 ≤ u.wst.ptr - 2) := by omega
  have hsub : u.wst.ptr - 1 - 1 = u.wst.ptr - 2 := by omega
  have hadd : u.wst.ptr - 2 + 1 = u.wst.ptr - 1 := by omega
  simp [execInstr, keepSnap, execOpcode, decode, Res.bind, isKeep, isShort,
    isReturn, upop, upop8, upush, upush8, liftSt, liftPush, stPop8, stPush8,
    e1, e2, e3, hsub, hadd]

/-- Claim C6 witness: the amended SFT statement applied to the concrete
stack `[0x11, 0x81]`. -/
theorem c6_sft_amended_witness :
    2 ≤ c6W.wst.ptr ∧ c6W.wst.ptr ≤ 255 ∧
    execInstr 0x1f c6W = Res.ok ()
      { c6W with
        wst := { c6W.wst with
          ptr := c6W.wst.ptr - 1,
          data := updf c6W.wst.data (c6W.wst.ptr - 2)
            (u8 ((u16 (c6W.wst.data (c6W.wst.ptr - 1) <<<
                ((c6W.wst.data (c6W.wst.ptr - 2) &&& 0xF0) >>> 4))) >>>
              (c6W.wst.data (c6W.wst.ptr - 2) &&& 0x0F))) } } :=
  ⟨by decide, by decide, c6_sft_amended c6W (by decide) (by decide)⟩

/-- Claim C7: on a non-halted machine, `eval` from a nonzero start address
whose memory byte is `0x00` returns `Ok` after a single fetch: the result
is the input machine with only `pc` advanced past the halt byte — both
stacks (pointers, shadow pointers and data) and every memory byte are
untouched. -/
theorem c7_halt_byte (u : Uxn) (fuel start : Nat) (h1 : u.halted = false)
    (h2 : u16 start ≠ 0) (h3 : u.ram (u16 start) = 0) :
    eval (fuel + 1) start u = EvalOut.ok { u with pc := u16 (u16 start + 1) } := by
  unfold eval evalLoop
  simp [h1, h2, h3]

/-- Claim C7 witness: the freshly booted machine, started at address 1
(whose byte is 0). -/
theorem c7_halt_byte_witness :
    initUxn.halted = false ∧ u16 1 ≠ 0 ∧ initUxn.ram (u16 1) = 0 ∧
    eval 1 1 initUxn = EvalOut.ok { initUxn with pc := u16 (u16 1 + 1) } :=
  ⟨rfl, by decide, rfl, c7_halt_byte initUxn 0 1 rfl (by decide) rfl⟩

/-- Claim C8 counterexample: a Short-mode `peek` or `poke` starting at
address `0xFFFF` does not wrap to address `0x0000`: it indexes ram at
`0x10000`, out of bounds, and panics (`fault`), refuting the claim that
peek and poke are total over all 16-bit addresses and modes. -/
theorem c8_peek_poke_fault :
    peek 0xFFFF 0x20 initUxn = Res.fault ∧
    poke 0xFFFF 7 0x20 initUxn = Res.fault := ⟨rfl, rfl⟩

/-- Claim C8 (amended): peek and poke never fail for accesses that stay
inside the 64KB array (addresses are not wrapped: a Short access needs
`addr + 1 < 65536`, a byte access `addr < 65536`). -/
theorem c8_inbounds_total (u : Uxn) (addr value mode : Nat)
    (h : (if isShort mode = true then addr + 1 else addr) < 65536) :
    (∃ v w, peek addr mode u = Res.ok v w) ∧
    (∃ w, poke addr value mode u = Res.ok () w) := by
  unfold peek poke
  by_cases hs : isShort mode = true <;> simp_all

/-- Claim C8 witness: an in-bounds Short access at `0x1234`. -/
theorem c8_inbounds_total_witness :
    (if isShort 0x20 = true then 0x1234 + 1 else 0x1234) < 65536 ∧
    ((∃ v w, peek 0x1234 0x20 initUxn = Res.ok v w) ∧
     (∃ w, poke 0x1234 7 0x20 initUxn = Res.ok () w)) :=
  ⟨by decide, c8_inbounds_total initUxn 0x1234 7 0x20 (by decide)⟩

/-- Claim C9 counterexample: a halted machine whose ram holds a pushing
program at address 1 is passed to `eval` with the fresh nonzero start
address 1; `eval` returns `Ok` but executes nothing — the machine is still
halted and the working stack still empty — refuting the reading that the
halted state ends at the next `eval` call with a fresh start address. -/
theorem c9_halted_eval_noop :
    outOk (eval 3 1 c9M) = true ∧
    outHalted (eval 3 1 c9M) = true ∧
    outPtr (eval 3 1 c9M) = 0 := by decide

/-- Claim C9 (amended): a system-device write to port `0x0f` sets the halt
flag exactly when the value is nonzero (a zero write clears it), and the
halted state persists across `eval` calls: `eval` on a halted machine
returns `Ok` immediately — having only set `pc` to the start address —
whatever the start address and fuel; only `boot` or a zero write to port
`0x0f` clears the flag. -/
theorem c9_halt_amended (u w : Uxn) (v fuel start : Nat) (h : w.halted = true) :
    (sysDeo 0x0f v u).1.halted = (v != 0) ∧
    eval fuel start w = EvalOut.ok { w with pc := u16 start } := by
  constructor
  · unfold sysDeo; simp
  · unfold eval; simp [h]

/-- Claim C9 witness: the halt-port write on the fresh machine and an
`eval` call on the concrete halted machine. -/
theorem c9_halt_amended_witness :
    c9M.halted = true ∧
    ((sysDeo 0x0f 0 initUxn).1.halted = (0 != 0) ∧
     eval 1 5 c9M = EvalOut.ok { c9M with pc := u16 5 }) :=
  ⟨rfl, c9_halt_amended initUxn c9M 0 1 5 rfl⟩

/-- Claim C10: decoding uses only the low 5 bits of the fetched byte (so
every byte maps into the 32-entry opcode table), and whenever `eval`
returns an error it is one of the known error strings — stack underflow,
stack overflow, division by zero, or a device error — never an
unknown-opcode error, which does not exist in the interpreter. -/
theorem c10_decode_and_error_set (b fuel start : Nat) (u : Uxn) (e : String)
    (w : Uxn) (h : eval fuel start u = EvalOut.err e w) :
    decode b = decode (b &&& 0x1f) ∧ goodErr e = true := by
  constructor
  · unfold decode
    rw [Nat.land_assoc]
    rfl
  · unfold eval at h
    split_ifs at h <;>
      first
        | exact EvalOut.noConfusion h
        | exact errsOk_evalLoop _ _ _ _ h

/-- Claim C10 witness: a concrete erroring run (`POP` on an empty stack)
whose error is in the documented set. -/
theorem c10_decode_and_error_set_witness :
    eval 1 1 c10M = EvalOut.err "Stack underflow" c10Me ∧
    (decode 5 = decode (5 &&& 0x1f) ∧ goodErr "Stack underflow" = true) :=
  ⟨rfl, c10_decode_and_error_set 5 1 1 c10M "Stack underflow" c10Me rfl⟩

end Uxnvm
